import Mathlib

/-!
Verification development for the weather chat agent
(`src/Agents/weather_agent.py`): a shallow embedding of the
`get_weather` tool and of the interactive session loop in `main`,
together with theorems about the specified behaviour.

Modelling conventions:
* JSON values are the inductive `JVal`; Python subscripting
  (`data[key]`, `lst[0]`) is `subscript`, which mirrors CPython's
  `KeyError` / `IndexError` / `TypeError` behaviour on each value shape.
* The network is a function `World := String → HttpOutcome`, mapping the
  request URL to either a decoded 2xx JSON body, a non-2xx status error
  (what `response.raise_for_status()` raises), or a transport failure
  (what `requests.get` raises). Both error shapes are
  `requests.exceptions.RequestException`s in the source.
* `get_weather` returns `Except PyErr String`: `.ok s` means the Python
  function returns the string `s`; `.error e` means the Python function
  raises the uncaught exception `e` (only `TypeError` can escape, since
  the source catches `RequestException`, `KeyError` and `IndexError`).
-/

set_option autoImplicit false

/-- A JSON value, as decoded by `response.json()`. -/
inductive JVal where
  | null
  | bool (b : Bool)
  | num (n : Int)
  | str (s : String)
  | arr (elems : List JVal)
  | obj (fields : List (String × JVal))

/-- A Python subscript key: either a string key or a non-negative integer index
(the source only subscripts with string literals and the literal `0`). -/
inductive SubKey where
  | s (key : String)
  | i (idx : Nat)
deriving DecidableEq

/-- The Python exceptions the parsing code can raise, with the text of
`str(e)`. `keyError` and `indexError` are caught by the source's
`except (KeyError, IndexError)`; `typeError` is not caught anywhere. -/
inductive PyErr where
  | keyError (detail : String)
  | indexError (detail : String)
  | typeError (detail : String)
deriving DecidableEq

/-- First-match association lookup, modelling a Python `dict` access
(JSON object keys are unique, so first match is the dict lookup). -/
def objLookup : List (String × JVal) → String → Option JVal
  | [], _ => none
  | (k, v) :: rest, key => if k = key then some v else objLookup rest key

/-- Python subscripting `v[key]` on a decoded JSON value, following CPython:
dict lookup raises `KeyError` when absent; list indexing raises `IndexError`
out of range and `TypeError` on a string key; string indexing yields a
one-character string; every other shape raises `TypeError`. -/
def subscript : JVal → SubKey → Except PyErr JVal
  | .obj fields, .s key =>
    match objLookup fields key with
    | some v => .ok v
    | none => .error (.keyError ("\x27" ++ key ++ "\x27"))
  | .obj _, .i idx => .error (.keyError (toString idx))
  | .arr xs, .i idx =>
    match xs.get? idx with
    | some v => .ok v
    | none => .error (.indexError "list index out of range")
  | .arr _, .s _ => .error (.typeError "list indices must be integers or slices, not str")
  | .str s, .i idx =>
    match s.data.get? idx with
    | some c => .ok (.str (String.singleton c))
    | none => .error (.indexError "string index out of range")
  | .str _, .s _ => .error (.typeError "string indices must be integers")
  | .null, _ => .error (.typeError "\x27NoneType\x27 object is not subscriptable")
  | .bool _, _ => .error (.typeError "\x27bool\x27 object is not subscriptable")
  | .num _, _ => .error (.typeError "\x27int\x27 object is not subscriptable")

/-- The field-extraction chain of `get_weather` (source lines 33-38):
`data['current_condition'][0]`, then `['weatherDesc'][0]['value']`,
`['temp_C']`, `['temp_F']`, `['humidity']`, `['windspeedKmph']`,
in source order, stopping at the first exception. -/
def extractFields (data : JVal) : Except PyErr (JVal × JVal × JVal × JVal × JVal) := do
  let cc ← subscript data (.s "current_condition")
  let current_condition ← subscript cc (.i 0)
  let wd ← subscript current_condition (.s "weatherDesc")
  let wd0 ← subscript wd (.i 0)
  let weather_description ← subscript wd0 (.s "value")
  let temp_c ← subscript current_condition (.s "temp_C")
  let temp_f ← subscript current_condition (.s "temp_F")
  let humidity ← subscript current_condition (.s "humidity")
  let wind_speed_kmph ← subscript current_condition (.s "windspeedKmph")
  return (weather_description, temp_c, temp_f, humidity, wind_speed_kmph)

/-- Lower-case hex digit, as used by `json.dumps` in `\uXXXX` escapes. -/
def hexDigit (n : Nat) : Char :=
  if n < 10 then Char.ofNat (48 + n) else Char.ofNat (97 + n - 10)

/-- A `\uXXXX` escape for one 16-bit code unit. -/
def uEsc (n : Nat) : List Char :=
  ['\\', 'u', hexDigit (n / 4096 % 16), hexDigit (n / 256 % 16),
    hexDigit (n / 16 % 16), hexDigit (n % 16)]

/-- How `json.dumps` (with its default `ensure_ascii=True`) renders one
character inside a JSON string: short escapes for the two specials and the
common controls, `\uXXXX` for other controls and for all non-ASCII
characters (a surrogate pair beyond the BMP), and the character itself for
printable ASCII. -/
def escChar (c : Char) : List Char :=
  if c = '"' then ['\\', '"']
  else if c = '\\' then ['\\', '\\']
  else if c = '\n' then ['\\', 'n']
  else if c = '\t' then ['\\', 't']
  else if c = '\r' then ['\\', 'r']
  else if c = Char.ofNat 8 then ['\\', 'b']
  else if c = Char.ofNat 12 then ['\\', 'f']
  else if c.toNat < 32 then uEsc c.toNat
  else if c.toNat < 127 then [c]
  else if c.toNat < 65536 then uEsc c.toNat
  else uEsc (55296 + (c.toNat - 65536) / 1024) ++ uEsc (56320 + (c.toNat - 65536) % 1024)

/-- A JSON string literal as produced by `json.dumps`. -/
def jstr (s : String) : String :=
  ⟨('"' :: (s.data.map escChar).flatten) ++ ['"']⟩

mutual

/-- `json.dumps` with its default separators (`", "` and `": "`). -/
def jdump : JVal → String
  | .null => "null"
  | .bool b => if b then "true" else "false"
  | .num n => toString n
  | .str s => jstr s
  | .arr xs => "[" ++ String.intercalate ", " (jdumpList xs) ++ "]"
  | .obj fs => "\x7b" ++ String.intercalate ", " (jdumpObj fs) ++ "\x7d"

/-- Serialized elements of a JSON array, in order. -/
def jdumpList : List JVal → List String
  | [] => []
  | x :: xs => jdump x :: jdumpList xs

/-- Serialized `"key": value` entries of a JSON object, in insertion order. -/
def jdumpObj : List (String × JVal) → List String
  | [] => []
  | (k, v) :: fs => (jstr k ++ ": " ++ jdump v) :: jdumpObj fs

end

/-- The Python value passed as the `city` argument: the tool is annotated
`city: str`, but the source still guards `if not isinstance(city, str)`,
so the model keeps the non-string shapes the guard is for. -/
inductive PyVal where
  | str (s : String)
  | int (n : Int)
  | pyBool (b : Bool)
  | pyNone
deriving DecidableEq

/-- Outcome of `requests.get(url)` followed by `response.raise_for_status()`
and `response.json()`: a decoded JSON body on 2xx, or the `str(e)` of the
`RequestException` raised on a non-2xx status or a transport failure. -/
inductive HttpOutcome where
  | success (body : JVal)
  | statusError (detail : String)
  | transportError (detail : String)

/-- The network, as a function from request URL to response. -/
def World := String → HttpOutcome

/-- Python's `city.replace(' ', '+')`: every space becomes a plus
(single-character pattern, so a character map). -/
def replaceSpaces (s : String) : String :=
  ⟨s.data.map (fun c => if c = ' ' then '+' else c)⟩

/-- The request URL of source line 27:
`f"https://wttr.in/{city.replace(' ', '+')}?format=j1"`. -/
def buildUrl (city : String) : String :=
  "https://wttr.in/" ++ replaceSpaces city ++ "?format=j1"

/-- The success payload of `get_weather` before serialization: the dict
literal of source lines 40-47, whose keys appear in source order and whose
values are the extracted fields, untransformed. -/
def weatherJson (city : String) (weather_description temp_c temp_f humidity wind_speed_kmph : JVal) : JVal :=
  .obj [("city", .str city),
        ("temperature_celsius", temp_c),
        ("temperature_fahrenheit", temp_f),
        ("description", weather_description),
        ("humidity_percent", humidity),
        ("wind_speed_kmph", wind_speed_kmph)]

/-- The `get_weather` tool (source lines 16-51). `.ok s` is a normal return
of the string `s`; `.error e` is an uncaught Python exception. The source
catches `RequestException` (both transport failures and non-2xx statuses)
and `(KeyError, IndexError)`, but not `TypeError`. -/
def get_weather (city : PyVal) (world : World) : Except PyErr String :=
  match city with
  | .str c =>
    match world (buildUrl c) with
    | .statusError e => .ok ("Error fetching weather data: " ++ e)
    | .transportError e => .ok ("Error fetching weather data: " ++ e)
    | .success data =>
      match extractFields data with
      | .ok (wd, tc, tf, hum, wind) => .ok (jdump (weatherJson c wd tc tf hum wind))
      | .error (.keyError d) =>
        .ok ("Error parsing weather data. The city might be invalid. Details: " ++ d)
      | .error (.indexError d) =>
        .ok ("Error parsing weather data. The city might be invalid. Details: " ++ d)
      | .error (.typeError d) => .error (.typeError d)
  | _ => .ok "Error: City must be a string."

/-- A model-issued tool call: the tool's name and its `city` argument
(the only tool is `get_weather(city)`). -/
structure ToolCall where
  name : String
  city : PyVal
deriving DecidableEq

/-- A chat message, mirroring `HumanMessage`, `AIMessage` (whose
`tool_calls` list is empty for a plain text reply) and `ToolMessage`. -/
inductive Msg where
  | human (content : String)
  | ai (content : String) (toolCalls : List ToolCall)
  | toolMsg (name : String) (content : String)
deriving DecidableEq

/-- The content of the exception-shaped `ToolMessage` the prebuilt
`ToolNode` emits when a tool raises (its default error handling), so a
raising tool still yields a message instead of crashing the stream. -/
def toolErrorContent (e : PyErr) : String :=
  match e with
  | .keyError d => "Error: KeyError(" ++ d ++ ")\n Please fix your mistakes."
  | .indexError d => "Error: IndexError(" ++ d ++ ")\n Please fix your mistakes."
  | .typeError d => "Error: TypeError(" ++ d ++ ")\n Please fix your mistakes."

/-- The content of the `ToolMessage` the prebuilt `ToolNode` emits for a
tool name outside the registered set (here the set is just `get_weather`). -/
def unknownToolContent (name : String) : String :=
  "Error: " ++ name ++ " is not a valid tool, try one of [get_weather]."

/-- Tool Dispatch for one tool call: the `ToolNode` built over
`tools = [get_weather]` looks the tool up by name, runs it, and wraps the
result as a `ToolMessage`. -/
def dispatchCall (world : World) (tc : ToolCall) : Msg :=
  if tc.name = "get_weather" then
    match get_weather tc.city world with
    | .ok s => .toolMsg tc.name s
    | .error e => .toolMsg tc.name (toolErrorContent e)
  else .toolMsg tc.name (unknownToolContent tc.name)

/-- The decision oracle: `model.invoke(messages)` inside `call_model`,
returning the reply content and its (possibly empty) tool-call list.
The model backend is external, so it is a parameter of the run. -/
def Decide := List Msg → String × List ToolCall

/-- One run of the compiled graph (`app.stream(graph_input)`), with fuel
bounding the agent/action cycles (the source loop is unbounded). The state
is the `AgentState` message list, which `operator.add` only ever appends
to; the second component accumulates the messages streamed out of the
`agent` and `action` nodes, in order. The run stops after the first
`AIMessage` with no tool calls (`should_continue` returns `"end"`);
otherwise the `action` node appends one `ToolMessage` per tool call and
control returns to `agent`. -/
def runGraph (d : Decide) (w : World) : Nat → List Msg → List Msg → List Msg × List Msg
  | 0, msgs, acc => (msgs, acc)
  | Nat.succ fuel, msgs, acc =>
    if (d msgs).2 = [] then
      (msgs ++ [Msg.ai (d msgs).1 (d msgs).2], acc ++ [Msg.ai (d msgs).1 (d msgs).2])
    else
      runGraph d w fuel
        (msgs ++ [Msg.ai (d msgs).1 (d msgs).2] ++ (d msgs).2.map (dispatchCall w))
        (acc ++ [Msg.ai (d msgs).1 (d msgs).2] ++ (d msgs).2.map (dispatchCall w))

/-- Whether a streamed message is a final human-readable reply: the
source's `isinstance(message, AIMessage) and not message.tool_calls`. -/
def isFinalAI : Msg → Bool
  | .ai _ [] => true
  | _ => false

/-- The `final_response` computed by `main`'s stream scan: the scan
overwrites on every match, so it ends as the last final `AIMessage`
among the streamed messages (or `None`). -/
def lastFinalAI (ms : List Msg) : Option Msg :=
  (ms.filter isFinalAI).getLast?

/-- The content of a message. -/
def msgContent : Msg → String
  | .human c => c
  | .ai c _ => c
  | .toolMsg _ c => c

/-- The fallback line `main` prints when a turn produces no final reply. -/
def fallbackText : String :=
  "AI: I seem to have run into an issue processing that. Please try again."

/-- One non-exit turn of `main`'s loop (source lines 104-130): append the
`HumanMessage`, stream the graph over the whole history, then append the
final response to the history and print it prefixed `AI:` if there is one,
else print the fallback and append nothing further. Returns the new
session history and the line printed. -/
def processTurn (d : Decide) (w : World) (fuel : Nat) (history : List Msg) (input : String) :
    List Msg × String :=
  let h1 := history ++ [Msg.human input]
  match lastFinalAI ((runGraph d w fuel h1 []).2) with
  | some m => (h1 ++ [m], "AI: " ++ msgContent m)
  | none => (h1, fallbackText)

/-- Python's `str.lower()`, on the ASCII range the exit keywords live in:
a character-wise lowercasing of the input. -/
def pyLower (s : String) : String :=
  ⟨s.data.map Char.toLower⟩

/-- The exit test of source line 99: `user_input.lower() in ["quit", "exit"]`. -/
def isExit (s : String) : Bool :=
  pyLower s = "quit" || pyLower s = "exit"

/-- The goodbye line printed on exit. -/
def goodbyeText : String := "Goodbye!"

/-- The session loop of `main` over a list of input lines: stop with the
goodbye message on an exit keyword (checked before anything is appended or
invoked), otherwise process the turn and continue on the updated history.
Returns the final `conversation_history` and the lines printed. -/
def runSession (d : Decide) (w : World) (fuel : Nat) :
    List String → List Msg → List Msg × List String
  | [], h => (h, [])
  | input :: rest, h =>
    if isExit input then (h, [goodbyeText])
    else
      (((runSession d w fuel rest (processTurn d w fuel h input).1).1,
        (processTurn d w fuel h input).2 ::
          (runSession d w fuel rest (processTurn d w fuel h input).1).2))

/-- Whether the turn starting from `h` on `input` produces a final reply
(the `if final_response:` test of source line 126). -/
def turnCompleted (d : Decide) (w : World) (fuel : Nat) (h : List Msg) (input : String) : Bool :=
  (lastFinalAI ((runGraph d w fuel (h ++ [Msg.human input]) []).2)).isSome

/-- Measurement: how many of the given turns complete with a final reply,
tracking the same history evolution as `runSession` on non-exit inputs. -/
def completedTurns (d : Decide) (w : World) (fuel : Nat) :
    List String → List Msg → Nat
  | [], _ => 0
  | input :: rest, h =>
    (if turnCompleted d w fuel h input then 1 else 0) +
      completedTurns d w fuel rest (processTurn d w fuel h input).1

/-! Concrete fixtures used by witnesses and counterexamples. -/

/-- The provider body of the spec's London scenario. -/
def londonBody : JVal :=
  .obj [("current_condition", .arr [
    .obj [("weatherDesc", .arr [.obj [("value", .str "Sunny")]]),
          ("temp_C", .str "18"), ("temp_F", .str "64"),
          ("humidity", .str "40"), ("windspeedKmph", .str "10")]])]

/-- A network that answers every URL with the London scenario body. -/
def worldLondon : World := fun _ => .success londonBody

/-- A network on which every request fails at the transport level. -/
def worldRefused : World := fun _ => .transportError "Connection refused"

/-- A network whose 2xx body has `current_condition` bound to a number, so
the subscript `data[\x27current_condition\x27][0]` hits a non-subscriptable
value. -/
def worldBadShape : World := fun _ => .success (.obj [("current_condition", .num 5)])

/-- A decision oracle that first requests `get_weather(city="Paris")` and,
once a tool result is in the context, answers with final text. -/
def decideParis : Decide := fun ms =>
  if ms.any (fun m => match m with | .toolMsg _ _ => true | _ => false)
  then ("It is sunny in Paris.", [])
  else ("", [⟨"get_weather", PyVal.str "Paris"⟩])

/-- A decision oracle that requests a tool on every call, so no turn ever
produces a final reply within any finite fuel. -/
def decideLoop : Decide := fun _ => ("", [⟨"get_weather", PyVal.str "Paris"⟩])

/-! Helper lemmas. -/

/-- The message `main` selects as `final_response` satisfies the selection
predicate: it is an `AIMessage` with no tool calls. -/
theorem lastFinalAI_isFinal (ms : List Msg) (m : Msg) (hm : lastFinalAI ms = some m) :
    isFinalAI m = true := by
  have h0 : m ∈ (ms.filter isFinalAI).getLast? := Option.mem_def.mpr hm
  obtain ⟨hne, heq⟩ := List.mem_getLast?_eq_getLast h0
  have h1 : m ∈ ms.filter isFinalAI := heq ▸ List.getLast_mem hne
  exact (List.mem_filter.mp h1).2

/-- The graph state (`AgentState.messages`, combined with `operator.add`)
is append-only: the messages a run starts from stay at the front of the
final state. -/
theorem runGraph_state_prefix (d : Decide) (w : World) :
    ∀ (fuel : Nat) (msgs acc : List Msg), msgs <+: (runGraph d w fuel msgs acc).1
  | 0, msgs, _ => List.prefix_rfl
  | Nat.succ fuel, msgs, acc => by
    rw [runGraph]
    by_cases hne : (d msgs).2 = []
    · rw [if_pos hne]
      exact List.prefix_append _ _
    · rw [if_neg hne]
      refine List.IsPrefix.trans ?_ ( runGraph_state_prefix d w fuel _ _)
      rw [List.append_assoc]
      exact List.prefix_append _ _

/-- After one turn the session history is the old history plus the user
message, plus at most one final assistant message. -/
theorem processTurn_fst (d : Decide) (w : World) (fuel : Nat) (h : List Msg) (input : String) :
    (turnCompleted d w fuel h input = false ∧
        (processTurn d w fuel h input).1 = h ++ [Msg.human input]) ∨
      ∃ m, turnCompleted d w fuel h input = true ∧ isFinalAI m = true ∧
        (processTurn d w fuel h input).1 = h ++ [Msg.human input] ++ [m] := by
  simp only [processTurn, turnCompleted]
  cases hm : lastFinalAI ((runGraph d w fuel (h ++ [Msg.human input]) []).2) with
  | none => exact Or.inl ⟨rfl, rfl⟩
  | some m => exact Or.inr ⟨m, rfl, lastFinalAI_isFinal _ m hm, rfl⟩

/-- One turn grows the session history by one entry (the user message),
plus one more exactly when the turn completes with a final reply. -/
theorem processTurn_length (d : Decide) (w : World) (fuel : Nat) (h : List Msg) (input : String) :
    (processTurn d w fuel h input).1.length =
      h.length + 1 + (if turnCompleted d w fuel h input then 1 else 0) := by
  rcases processTurn_fst d w fuel h input with ⟨hc, hp⟩ | ⟨m, hc, _, hp⟩ <;>
    rw [hp, hc] <;> simp

/-- One turn never truncates the session history. -/
theorem processTurn_prefix (d : Decide) (w : World) (fuel : Nat) (h : List Msg) (input : String) :
    h <+: (processTurn d w fuel h input).1 := by
  rcases processTurn_fst d w fuel h input with ⟨_, hp⟩ | ⟨m, _, _, hp⟩
  · rw [hp]
    exact List.prefix_append _ _
  · rw [hp, List.append_assoc]
    exact List.prefix_append _ _

/-- At most one turn completes per input line. -/
theorem completedTurns_le (d : Decide) (w : World) (fuel : Nat) :
    ∀ (inputs : List String) (h : List Msg),
      completedTurns d w fuel inputs h ≤ inputs.length
  | [], _ => Nat.le_refl 0
  | input :: rest, h => by
    rw [completedTurns]
    have hr := completedTurns_le d w fuel rest (processTurn d w fuel h input).1
    by_cases hc : turnCompleted d w fuel h input <;> simp [hc] <;> omega

/-! Claim theorems. -/

/-- C1: for every successful provider response whose body yields the five
current-condition fields, `get_weather` returns the serialized report whose
six fields are exactly the caller-supplied city and the extracted values,
untransformed. -/
theorem c1_success_roundtrip (city : String) (w : World)
    (body wd tc tf hum wind : JVal)
    (hw : w (buildUrl city) = HttpOutcome.success body)
    (hx : extractFields body = Except.ok (wd, tc, tf, hum, wind)) :
    get_weather (PyVal.str city) w =
        Except.ok (jdump (weatherJson city wd tc tf hum wind)) ∧
      subscript (weatherJson city wd tc tf hum wind) (.s "city") =
        Except.ok (JVal.str city) ∧
      subscript (weatherJson city wd tc tf hum wind) (.s "temperature_celsius") =
        Except.ok tc ∧
      subscript (weatherJson city wd tc tf hum wind) (.s "temperature_fahrenheit") =
        Except.ok tf ∧
      subscript (weatherJson city wd tc tf hum wind) (.s "description") =
        Except.ok wd ∧
      subscript (weatherJson city wd tc tf hum wind) (.s "humidity_percent") =
        Except.ok hum ∧
      subscript (weatherJson city wd tc tf hum wind) (.s "wind_speed_kmph") =
        Except.ok wind := by
  refine ⟨?_, rfl, rfl, rfl, rfl, rfl, rfl⟩
  simp [get_weather, hw, hx]

/-- Witness for C1: the spec's London scenario. -/
theorem c1_success_roundtrip_witness :
    get_weather (PyVal.str "London") worldLondon =
        Except.ok (jdump (weatherJson "London" (JVal.str "Sunny") (JVal.str "18")
          (JVal.str "64") (JVal.str "40") (JVal.str "10"))) ∧
      subscript (weatherJson "London" (JVal.str "Sunny") (JVal.str "18") (JVal.str "64")
          (JVal.str "40") (JVal.str "10")) (.s "city") = Except.ok (JVal.str "London") ∧
      subscript (weatherJson "London" (JVal.str "Sunny") (JVal.str "18") (JVal.str "64")
          (JVal.str "40") (JVal.str "10")) (.s "temperature_celsius") = Except.ok (JVal.str "18") ∧
      subscript (weatherJson "London" (JVal.str "Sunny") (JVal.str "18") (JVal.str "64")
          (JVal.str "40") (JVal.str "10")) (.s "temperature_fahrenheit") = Except.ok (JVal.str "64") ∧
      subscript (weatherJson "London" (JVal.str "Sunny") (JVal.str "18") (JVal.str "64")
          (JVal.str "40") (JVal.str "10")) (.s "description") = Except.ok (JVal.str "Sunny") ∧
      subscript (weatherJson "London" (JVal.str "Sunny") (JVal.str "18") (JVal.str "64")
          (JVal.str "40") (JVal.str "10")) (.s "humidity_percent") = Except.ok (JVal.str "40") ∧
      subscript (weatherJson "London" (JVal.str "Sunny") (JVal.str "18") (JVal.str "64")
          (JVal.str "40") (JVal.str "10")) (.s "wind_speed_kmph") = Except.ok (JVal.str "10") :=
  c1_success_roundtrip "London" worldLondon londonBody
    (JVal.str "Sunny") (JVal.str "18") (JVal.str "64") (JVal.str "40") (JVal.str "10")
    rfl rfl

/-- C5: a non-string `city` is answered with the fixed descriptive error,
for every network, so no request is ever issued for it. -/
theorem c5_nonstring_input (v : PyVal) (hv : ∀ s, v ≠ PyVal.str s) (w : World) :
    get_weather v w = Except.ok "Error: City must be a string." := by
  cases v with
  | str s => exact absurd rfl (hv s)
  | int n => rfl
  | pyBool b => rfl
  | pyNone => rfl

/-- Witness for C5: the integer input `0` against a failing network. -/
theorem c5_nonstring_input_witness :
    get_weather (PyVal.int 0) worldRefused = Except.ok "Error: City must be a string." :=
  c5_nonstring_input (PyVal.int 0) (fun _ hs => PyVal.noConfusion hs) worldRefused

/-- C7: a transport failure or a non-2xx status both surface as the
`Error fetching weather data:` string carrying the underlying detail,
returned (not raised). -/
theorem c7_network_error (city : String) (w : World) (detail : String)
    (hw : w (buildUrl city) = HttpOutcome.transportError detail ∨
          w (buildUrl city) = HttpOutcome.statusError detail) :
    get_weather (PyVal.str city) w =
      Except.ok ("Error fetching weather data: " ++ detail) := by
  rcases hw with hw | hw <;> simp [get_weather, hw]

/-- Witness for C7: a refused connection. -/
theorem c7_network_error_witness :
    get_weather (PyVal.str "London") worldRefused =
      Except.ok ("Error fetching weather data: " ++ "Connection refused") :=
  c7_network_error "London" worldRefused "Connection refused" (Or.inl rfl)

/-- C8: the request only depends on the deterministic URL `buildUrl city`
(two networks that agree there give identical results), and that URL is the
endpoint path with every space of the city replaced by a plus and the JSON
format query appended. -/
theorem c8_url_deterministic (city : String) (w1 w2 : World)
    (hw : w1 (buildUrl city) = w2 (buildUrl city)) :
    get_weather (PyVal.str city) w1 = get_weather (PyVal.str city) w2 ∧
      (buildUrl city).data =
        "https://wttr.in/".data ++
          city.data.map (fun c => if c = ' ' then '+' else c) ++
          "?format=j1".data := by
  constructor
  · simp [get_weather, hw]
  · simp [buildUrl, replaceSpaces, String.data_append]

/-- Witness for C8: the city `New York` against the refused network. -/
theorem c8_url_deterministic_witness :
    get_weather (PyVal.str "New York") worldRefused =
        get_weather (PyVal.str "New York") worldRefused ∧
      (buildUrl "New York").data =
        "https://wttr.in/".data ++
          "New York".data.map (fun c => if c = ' ' then '+' else c) ++
          "?format=j1".data :=
  c8_url_deterministic "New York" worldRefused worldRefused rfl

/-- Whether the extraction chain aborts with an uncaught `TypeError`
(the one failure shape of the parsing code that escapes `get_weather`). -/
def hitsTypeError (r : Except PyErr (JVal × JVal × JVal × JVal × JVal)) : Bool :=
  match r with
  | .error (.typeError _) => true
  | _ => false

/-- C10: over its modelled failure modes — non-string input, transport or
status failure, missing key, out-of-range index, or full success —
`get_weather` always returns a string to its caller. -/
theorem c10_total_string (city : PyVal) (w : World)
    (hs : ∀ s body, city = PyVal.str s → w (buildUrl s) = HttpOutcome.success body →
      hitsTypeError (extractFields body) = false) :
    ∃ out, get_weather city w = Except.ok out := by
  cases city with
  | str s =>
    cases hw : w (buildUrl s) with
    | success body =>
      cases hx : extractFields body with
      | ok t =>
        obtain ⟨wd, tc, tf, hum, wind⟩ := t
        exact ⟨jdump (weatherJson s wd tc tf hum wind), by simp [get_weather, hw, hx]⟩
      | error e =>
        cases e with
        | keyError detail =>
          exact ⟨"Error parsing weather data. The city might be invalid. Details: " ++ detail,
            by simp [get_weather, hw, hx]⟩
        | indexError detail =>
          exact ⟨"Error parsing weather data. The city might be invalid. Details: " ++ detail,
            by simp [get_weather, hw, hx]⟩
        | typeError detail =>
          have hf := hs s body rfl hw
          rw [hx] at hf
          exact absurd hf (by simp [hitsTypeError])
    | statusError detail =>
      exact ⟨"Error fetching weather data: " ++ detail, by simp [get_weather, hw]⟩
    | transportError detail =>
      exact ⟨"Error fetching weather data: " ++ detail, by simp [get_weather, hw]⟩
  | int n => exact ⟨"Error: City must be a string.", rfl⟩
  | pyBool b => exact ⟨"Error: City must be a string.", rfl⟩
  | pyNone => exact ⟨"Error: City must be a string.", rfl⟩

/-- Witness for C10: the London scenario body parses without a `TypeError`,
so `get_weather` returns a string. -/
theorem c10_total_string_witness :
    ∃ out, get_weather (PyVal.str "London") worldLondon = Except.ok out :=
  c10_total_string (PyVal.str "London") worldLondon
    (fun s body _ hw => by
      have hb : londonBody = body := by
        have : HttpOutcome.success londonBody = HttpOutcome.success body := hw
        cases this
        rfl
      rw [← hb]
      rfl)

/-- C6 counterexample: a 2xx response whose `current_condition` is a number
(a shape that lacks the expected nested fields) does not produce the
`ParseError` string — `get_weather` raises an uncaught `TypeError`. -/
theorem c6_counterexample :
    get_weather (PyVal.str "London") worldBadShape =
      Except.error (PyErr.typeError "\x27int\x27 object is not subscriptable") := by
  rfl

/-- C6 (amended): a missing key or an out-of-range index during extraction —
in particular a body without the `current_condition` key — is caught and
reported as the parse-error string mentioning the city might be invalid;
only wrongly-typed shapes escape as `TypeError` instead. -/
theorem c6_parse_error (city : String) (w : World) (body : JVal) (detail : String)
    (hw : w (buildUrl city) = HttpOutcome.success body)
    (hx : extractFields body = Except.error (PyErr.keyError detail) ∨
          extractFields body = Except.error (PyErr.indexError detail)) :
    get_weather (PyVal.str city) w =
        Except.ok ("Error parsing weather data. The city might be invalid. Details: " ++ detail) ∧
      ∀ fields, objLookup fields "current_condition" = none →
        extractFields (JVal.obj fields) =
          Except.error (PyErr.keyError "\x27current_condition\x27") := by
  constructor
  · rcases hx with hx | hx <;> simp [get_weather, hw, hx]
  · intro fields hf
    simp [extractFields, subscript, hf, Bind.bind, Except.bind]

/-- Witness for C6 (amended): a body whose object is missing
`current_condition` yields the parse-error string. -/
theorem c6_parse_error_witness :
    get_weather (PyVal.str "Atlantis") (fun _ => HttpOutcome.success (JVal.obj [])) =
        Except.ok ("Error parsing weather data. The city might be invalid. Details: " ++
          "\x27current_condition\x27") ∧
      ∀ fields, objLookup fields "current_condition" = none →
        extractFields (JVal.obj fields) =
          Except.error (PyErr.keyError "\x27current_condition\x27") :=
  c6_parse_error "Atlantis" (fun _ => HttpOutcome.success (JVal.obj [])) (JVal.obj [])
    "\x27current_condition\x27" rfl (Or.inl rfl)

/-- C9: the session terminates exactly on a case-insensitive `quit` /
`exit` match, printing only the goodbye line, leaving the history
untouched and consulting neither the model oracle nor the network (the
terminating result is the same for every `d` and `w`); any other input is
processed as a turn. -/
theorem c9_exit_keywords (d : Decide) (w : World) (fuel : Nat) (input : String)
    (rest : List String) (h : List Msg) :
    (isExit input = true ↔ (pyLower input = "quit" ∨ pyLower input = "exit")) ∧
      (isExit input = true →
        runSession d w fuel (input :: rest) h = (h, [goodbyeText])) ∧
      (isExit input = false →
        runSession d w fuel (input :: rest) h =
          ((runSession d w fuel rest (processTurn d w fuel h input).1).1,
            (processTurn d w fuel h input).2 ::
              (runSession d w fuel rest (processTurn d w fuel h input).1).2)) := by
  refine ⟨?_, ?_, ?_⟩
  · simp [isExit]
  · intro hx
    simp [runSession, hx]
  · intro hx
    simp [runSession, hx]

/-- Witness for C9: the first input `QUIT` ends the session at once. -/
theorem c9_exit_keywords_witness :
    runSession decideParis worldRefused 1 ["QUIT", "later"] [] = ([], [goodbyeText]) :=
  (c9_exit_keywords decideParis worldRefused 1 "QUIT" ["later"] []).2.1 (by decide)

/-- C4: a turn with no final reply prints the fixed fallback line, appends
only the user message for that turn, and the session continues with the
next input. -/
theorem c4_fallback (d : Decide) (w : World) (fuel : Nat) (h : List Msg)
    (input : String) (rest : List String)
    (hn : lastFinalAI ((runGraph d w fuel (h ++ [Msg.human input]) []).2) = none)
    (hx : isExit input = false) :
    processTurn d w fuel h input = (h ++ [Msg.human input], fallbackText) ∧
      runSession d w fuel (input :: rest) h =
        ((runSession d w fuel rest (h ++ [Msg.human input])).1,
          fallbackText :: (runSession d w fuel rest (h ++ [Msg.human input])).2) := by
  have hp : processTurn d w fuel h input = (h ++ [Msg.human input], fallbackText) := by
    simp only [processTurn, hn]
  refine ⟨hp, ?_⟩
  simp [runSession, hx, hp]

/-- Witness for C4: an oracle that always requests a tool never yields a
final reply, so the turn falls back and the session moves on. -/
theorem c4_fallback_witness :
    processTurn decideLoop worldRefused 2 [] "hi" =
        ([] ++ [Msg.human "hi"], fallbackText) ∧
      runSession decideLoop worldRefused 2 ["hi"] [] =
        ((runSession decideLoop worldRefused 2 [] ([] ++ [Msg.human "hi"])).1,
          fallbackText :: (runSession decideLoop worldRefused 2 [] ([] ++ [Msg.human "hi"])).2) :=
  c4_fallback decideLoop worldRefused 2 [] "hi" [] (by decide) (by decide)

/-- C3 (amended): when the Decision Step returns a tool request, that
request and the tool results Tool Dispatch produces for it are appended to
the turn's graph message state and stay there for the remainder of the
turn; the session-level conversation history, however, only ever gains the
user message and (when one is produced) the final assistant text — tool
requests and tool results are not carried into later turns. -/
theorem c3_turn_state (d : Decide) (w : World) (fuel : Nat) (msgs acc : List Msg)
    (c : String) (tcs : List ToolCall)
    (hd : d msgs = (c, tcs)) (hne : tcs ≠ []) :
    (msgs ++ [Msg.ai c tcs] ++ tcs.map (dispatchCall w)) <+:
        (runGraph d w (fuel + 1) msgs acc).1 ∧
      ∀ (h : List Msg) (input : String),
        (processTurn d w fuel h input).1 = h ++ [Msg.human input] ∨
          ∃ m, isFinalAI m = true ∧
            (processTurn d w fuel h input).1 = h ++ [Msg.human input] ++ [m] := by
  constructor
  · rw [runGraph]
    simp only [hd]
    rw [if_neg hne]
    exact runGraph_state_prefix d w fuel _ _
  · intro h input
    rcases processTurn_fst d w fuel h input with ⟨_, hp⟩ | ⟨m, _, hf, hp⟩
    · exact Or.inl hp
    · exact Or.inr ⟨m, hf, hp⟩

/-- Witness for C3 (amended): the Paris oracle's first decision is a tool
request, which (with its tool result) lands in the turn's graph state. -/
theorem c3_turn_state_witness :
    ([Msg.human "Hi"] ++ [Msg.ai "" [⟨"get_weather", PyVal.str "Paris"⟩]] ++
        [(⟨"get_weather", PyVal.str "Paris"⟩ : ToolCall)].map (dispatchCall worldRefused)) <+:
      (runGraph decideParis worldRefused (4 + 1) [Msg.human "Hi"] []).1 :=
  (c3_turn_state decideParis worldRefused 4 [Msg.human "Hi"] [] ""
    [⟨"get_weather", PyVal.str "Paris"⟩] (by decide) (by decide)).1

/-- C3 counterexample: in a turn whose decision is first a tool request and
then final text, the session history after the turn holds exactly the user
message and the final text — neither the `AssistantToolRequest` nor the
`ToolResult` is in the session history, although both were produced and
streamed during the turn. -/
theorem c3_counterexample :
    (processTurn decideParis worldRefused 5 [] "What is the weather in Paris?").1 =
        [Msg.human "What is the weather in Paris?",
          Msg.ai "It is sunny in Paris." []] ∧
      Msg.ai "" [⟨"get_weather", PyVal.str "Paris"⟩] ∈
        (runGraph decideParis worldRefused 5
          [Msg.human "What is the weather in Paris?"] []).1 ∧
      Msg.toolMsg "get_weather" "Error fetching weather data: Connection refused" ∈
        (runGraph decideParis worldRefused 5
          [Msg.human "What is the weather in Paris?"] []).1 ∧
      Msg.ai "" [⟨"get_weather", PyVal.str "Paris"⟩] ∉
        (processTurn decideParis worldRefused 5 [] "What is the weather in Paris?").1 ∧
      Msg.toolMsg "get_weather" "Error fetching weather data: Connection refused" ∉
        (processTurn decideParis worldRefused 5 [] "What is the weather in Paris?").1 := by
  decide

/-- C2: over any run of non-exit turns the session history grows by exactly
one user entry per turn plus one assistant entry per completed turn — so
its length is at least twice the number of completed turns (plus the
initial length), it strictly increases across turns, and the previous
history is always a prefix of the new one (never truncated). -/
theorem c2_conversation_growth (d : Decide) (w : World) (fuel : Nat)
    (inputs : List String) (h : List Msg)
    (hx : ∀ i ∈ inputs, isExit i = false) :
    (runSession d w fuel inputs h).1.length
        = h.length + inputs.length + completedTurns d w fuel inputs h ∧
      h.length + 2 * completedTurns d w fuel inputs h ≤
        (runSession d w fuel inputs h).1.length ∧
      h <+: (runSession d w fuel inputs h).1 ∧
      (inputs ≠ [] → h.length < (runSession d w fuel inputs h).1.length) := by
  induction inputs generalizing h with
  | nil =>
    simp [runSession, completedTurns, List.prefix_rfl]
  | cons input rest ih =>
    have hex : isExit input = false := hx input (List.mem_cons_self input rest)
    have hrest : ∀ i ∈ rest, isExit i = false :=
      fun i hi => hx i (List.mem_cons_of_mem input hi)
    obtain ⟨ih1, ih2, ih3, _⟩ := ih (processTurn d w fuel h input).1 hrest
    have hlen := processTurn_length d w fuel h input
    have hpre := processTurn_prefix d w fuel h input
    have hct := completedTurns_le d w fuel rest (processTurn d w fuel h input).1
    have hp1 : (runSession d w fuel (input :: rest) h).1 =
        (runSession d w fuel rest (processTurn d w fuel h input).1).1 := by
      simp [runSession, hex]
    have hco : completedTurns d w fuel (input :: rest) h =
        (if turnCompleted d w fuel h input then 1 else 0) +
          completedTurns d w fuel rest (processTurn d w fuel h input).1 := rfl
    have hcb : (if turnCompleted d w fuel h input then 1 else 0) ≤ 1 := by
      by_cases hc : turnCompleted d w fuel h input <;> simp [hc]
    rw [hp1]
    simp only [List.length_cons]
    exact ⟨by omega, by omega, List.IsPrefix.trans hpre ih3, fun _ => by omega⟩

/-- Witness for C2: two completed turns from an empty history give a
history of length four. -/
theorem c2_conversation_growth_witness :
    (runSession decideParis worldRefused 5 ["Weather in Paris?", "Thanks"] []).1.length
        = ([] : List Msg).length + ["Weather in Paris?", "Thanks"].length +
          completedTurns decideParis worldRefused 5 ["Weather in Paris?", "Thanks"] [] ∧
      ([] : List Msg).length +
          2 * completedTurns decideParis worldRefused 5 ["Weather in Paris?", "Thanks"] [] ≤
        (runSession decideParis worldRefused 5 ["Weather in Paris?", "Thanks"] []).1.length ∧
      ([] : List Msg) <+:
        (runSession decideParis worldRefused 5 ["Weather in Paris?", "Thanks"] []).1 ∧
      (["Weather in Paris?", "Thanks"] ≠ [] →
        ([] : List Msg).length <
          (runSession decideParis worldRefused 5 ["Weather in Paris?", "Thanks"] []).1.length) :=
  c2_conversation_growth decideParis worldRefused 5 ["Weather in Paris?", "Thanks"] []
    (by decide)
